import Mathlib

/-!
Verification of the ContractClarity backend (src/backend/app.py) core:
the OTP challenge store, the JWT token service, the auth endpoints that
use them, and the asynchronous analysis-job registry.

The Python code is shallowly embedded: the in-memory dictionaries
(`_otp_store`, `tasks`) become association lists on `String` keys, the
JWT blacklist set `_token_bl` becomes a list of jti strings, timestamps
are `Int` seconds since epoch, and each handler becomes a pure function
from its inputs and the relevant store to a result plus the new store.
Randomness (OTP codes, jti values, uuids) and the external LLM /
retrieval calls are passed in as explicit parameters.
-/

namespace ContractClarity

/-! ## Python dict as an association list (string keys) -/

def lookupStore {α : Type} : List (String × α) → String → Option α
  | [], _ => none
  | (k, v) :: rest, key => if k = key then some v else lookupStore rest key

def eraseStore {α : Type} : List (String × α) → String → List (String × α)
  | [], _ => []
  | (k, v) :: rest, key =>
      if k = key then eraseStore rest key else (k, v) :: eraseStore rest key

def insertStore {α : Type} (s : List (String × α)) (k : String) (v : α) :
    List (String × α) :=
  (k, v) :: eraseStore s k

theorem lookupStore_insert {α : Type} (s : List (String × α)) (k : String) (v : α) :
    lookupStore (insertStore s k v) k = some v := by
  simp [insertStore, lookupStore]

theorem lookupStore_erase {α : Type} (s : List (String × α)) (k : String) :
    lookupStore (eraseStore s k) k = none := by
  induction s with
  | nil => simp [eraseStore, lookupStore]
  | cons hd tl ih =>
      obtain ⟨k', v⟩ := hd
      by_cases h : k' = k
      · simpa [eraseStore, h] using ih
      · simpa [eraseStore, lookupStore, h] using ih

/-! ## OTP challenge store (`_otp_generate` / `_otp_verify`)

`_otp_store` maps a phone number to a dict with keys
code, expiry, attempts, issued_at; the three configuration
constants are the literals from app.py. -/

def OTP_EXPIRE_SECONDS : Int := 300

def OTP_MAX_ATTEMPTS : Nat := 5

def OTP_RATE_LIMIT_SEC : Int := 60

structure OtpRecord where
  code : String
  expiry : Int
  attempts : Nat
  issuedAt : Int
  deriving DecidableEq, Repr

abbrev OtpStore := List (String × OtpRecord)

/-- The distinct `ValueError` outcomes of `_otp_verify` / `_otp_generate`
(identified by their message text in the Python code). -/
inductive OtpError
  | notFound
  | expired
  | tooManyAttempts
  | codeMismatch (remaining : Nat)
  deriving DecidableEq, Repr

/-- Result of `_otp_generate`: either the rate-limit `ValueError` carrying the
seconds remaining, or the updated store together with the stored code and the
dev-mode hint (`code` when `DEV_MODE`, `""` otherwise). The freshly drawn
6-digit code is passed in as `code` (randomness externalized). -/
inductive OtpGenResult
  | rateLimited (remaining : Int)
  | issued (store : OtpStore) (code : String) (devHint : String)
  deriving DecidableEq, Repr

def otpGenerate (s : OtpStore) (phone : String) (now : Int) (code : String)
    (devMode : Bool) : OtpGenResult :=
  match lookupStore s phone with
  | some r =>
      if now - r.issuedAt < OTP_RATE_LIMIT_SEC then
        .rateLimited (OTP_RATE_LIMIT_SEC - (now - r.issuedAt))
      else
        .issued
          (insertStore s phone
            { code := code, expiry := now + OTP_EXPIRE_SECONDS,
              attempts := 0, issuedAt := now })
          code (if devMode then code else "")
  | none =>
      .issued
        (insertStore s phone
          { code := code, expiry := now + OTP_EXPIRE_SECONDS,
            attempts := 0, issuedAt := now })
        code (if devMode then code else "")

/-- `_otp_verify(phone, code)`: returns the store after the call together
with the raised error, `none` meaning success (`return True`). The attempt
counter is incremented before the limit check (`record["attempts"] += 1`
then `> OTP_MAX_ATTEMPTS`), and the record is deleted on expiry, on
exceeding the limit, and on success. -/
def otpVerify (s : OtpStore) (phone code : String) (now : Int) :
    OtpStore × Option OtpError :=
  match lookupStore s phone with
  | none => (s, some .notFound)
  | some r =>
      if r.expiry < now then (eraseStore s phone, some .expired)
      else if OTP_MAX_ATTEMPTS < r.attempts + 1 then
        (eraseStore s phone, some .tooManyAttempts)
      else if r.code ≠ code then
        (insertStore s phone { r with attempts := r.attempts + 1 },
         some (.codeMismatch (OTP_MAX_ATTEMPTS - (r.attempts + 1))))
      else (eraseStore s phone, none)

/-- Iterate `n` wrong-code verification attempts, keeping the store. -/
def otpWrongRuns (phone wrong : String) (now : Int) (s : OtpStore) : Nat → OtpStore
  | 0 => s
  | k + 1 => (otpVerify (otpWrongRuns phone wrong now s k) phone wrong now).1

theorem otpVerify_notFound (s : OtpStore) (phone code : String) (now : Int)
    (h : lookupStore s phone = none) :
    otpVerify s phone code now = (s, some .notFound) := by
  simp [otpVerify, h]

theorem otpVerify_wrong (s : OtpStore) (phone wrong : String) (now : Int)
    (r : OtpRecord) (hl : lookupStore s phone = some r)
    (hexp : now ≤ r.expiry) (ha : r.attempts + 1 ≤ OTP_MAX_ATTEMPTS)
    (hw : r.code ≠ wrong) :
    otpVerify s phone wrong now =
      (insertStore s phone { r with attempts := r.attempts + 1 },
       some (.codeMismatch (OTP_MAX_ATTEMPTS - (r.attempts + 1)))) := by
  simp only [otpVerify, hl]
  rw [if_neg (by omega), if_neg (by omega), if_pos hw]

theorem otpVerify_correct (s : OtpStore) (phone code : String) (now : Int)
    (r : OtpRecord) (hl : lookupStore s phone = some r)
    (hexp : now ≤ r.expiry) (ha : r.attempts + 1 ≤ OTP_MAX_ATTEMPTS)
    (hc : r.code = code) :
    otpVerify s phone code now = (eraseStore s phone, none) := by
  simp only [otpVerify, hl]
  rw [if_neg (by omega), if_neg (by omega), if_neg (by simp [hc])]

theorem otpVerify_tooMany (s : OtpStore) (phone code : String) (now : Int)
    (r : OtpRecord) (hl : lookupStore s phone = some r)
    (hexp : now ≤ r.expiry) (ha : OTP_MAX_ATTEMPTS < r.attempts + 1) :
    otpVerify s phone code now = (eraseStore s phone, some .tooManyAttempts) := by
  simp only [otpVerify, hl]
  rw [if_neg (by omega), if_pos (by omega)]

/-- Invariant of repeated wrong-code attempts: after `k ≤ 5` wrong submissions
against a fresh challenge the record is still stored, with `attempts = k`. -/
theorem otpWrongRuns_lookup (s : OtpStore) (phone code wrong : String) (now : Int)
    (r : OtpRecord) (hl : lookupStore s phone = some r) (h0 : r.attempts = 0)
    (hc : r.code = code) (hexp : now ≤ r.expiry) (hw : wrong ≠ code) :
    ∀ k, k ≤ OTP_MAX_ATTEMPTS →
      lookupStore (otpWrongRuns phone wrong now s k) phone
        = some { r with attempts := k } := by
  have hrw : r.code ≠ wrong := by rw [hc]; exact Ne.symm hw
  intro k
  induction k with
  | zero =>
      intro _
      rw [otpWrongRuns, hl]
      cases r
      simp_all
  | succ n ih =>
      intro hn
      rw [otpWrongRuns,
        otpVerify_wrong _ _ _ _ { r with attempts := n } (ih (by omega))
          hexp (by simpa using hn) hrw]
      exact lookupStore_insert _ _ _

/-- C1 (amended): submitting five wrong codes in a row does not delete the
record on the fifth attempt: each of the five attempts fails with
`CodeMismatch` (the fifth reporting 0 attempts remaining) and leaves the
record stored with `attempts = 5`.  The challenge is nevertheless exhausted:
a sixth verify — even with the correct code — fails with `TooManyAttempts`
and only then deletes the record, and a seventh verify fails `NotFound`. -/
theorem otp_exhaustion_amended (s : OtpStore) (phone code wrong : String) (now : Int)
    (r : OtpRecord) (hl : lookupStore s phone = some r) (h0 : r.attempts = 0)
    (hc : r.code = code) (hexp : now ≤ r.expiry) (hw : wrong ≠ code) :
    (∀ k, k < OTP_MAX_ATTEMPTS →
      (otpVerify (otpWrongRuns phone wrong now s k) phone wrong now).2
        = some (.codeMismatch (OTP_MAX_ATTEMPTS - (k + 1)))) ∧
    lookupStore (otpWrongRuns phone wrong now s OTP_MAX_ATTEMPTS) phone
      = some { r with attempts := OTP_MAX_ATTEMPTS } ∧
    otpVerify (otpWrongRuns phone wrong now s OTP_MAX_ATTEMPTS) phone code now
      = (eraseStore (otpWrongRuns phone wrong now s OTP_MAX_ATTEMPTS) phone,
         some .tooManyAttempts) ∧
    (otpVerify (eraseStore (otpWrongRuns phone wrong now s OTP_MAX_ATTEMPTS) phone)
        phone code now).2 = some .notFound := by
  have hrw : r.code ≠ wrong := by rw [hc]; exact Ne.symm hw
  refine ⟨?_, ?_, ?_, ?_⟩
  · intro k hk
    rw [otpVerify_wrong _ _ _ _ { r with attempts := k }
        (otpWrongRuns_lookup s phone code wrong now r hl h0 hc hexp hw k (by omega))
        hexp (by simpa using hk) hrw]
  · exact otpWrongRuns_lookup s phone code wrong now r hl h0 hc hexp hw
      OTP_MAX_ATTEMPTS (le_refl _)
  · exact otpVerify_tooMany _ _ _ _ { r with attempts := OTP_MAX_ATTEMPTS }
      (otpWrongRuns_lookup s phone code wrong now r hl h0 hc hexp hw
        OTP_MAX_ATTEMPTS (le_refl _))
      hexp (by simp [OTP_MAX_ATTEMPTS])
  · rw [otpVerify_notFound _ _ _ _ (lookupStore_erase _ _)]

/-- A freshly issued challenge for the phone used in the spec scenario. -/
def otpDemoStore : OtpStore :=
  [("13800000000", { code := "123456", expiry := 300, attempts := 0, issuedAt := 0 })]

/-- C1 witness: concrete run of the amended exhaustion scenario. -/
theorem otp_exhaustion_amended_w :
    otpVerify (otpWrongRuns "13800000000" "000000" 0 otpDemoStore OTP_MAX_ATTEMPTS)
        "13800000000" "123456" 0
      = (eraseStore (otpWrongRuns "13800000000" "000000" 0 otpDemoStore OTP_MAX_ATTEMPTS)
          "13800000000", some .tooManyAttempts) :=
  (otp_exhaustion_amended otpDemoStore "13800000000" "123456" "000000" 0
    { code := "123456", expiry := 300, attempts := 0, issuedAt := 0 }
    (by decide) rfl rfl (by decide) (by decide)).2.2.1

/-- C1 counterexample: against the claim, the 5th wrong attempt does NOT
remove the record (it fails `CodeMismatch` with 0 attempts remaining and the
record stays with `attempts = 5`), and the 6th verify with the correct code
fails `TooManyAttempts`, not `NotFound`. -/
theorem otp_fifth_attempt_keeps_record :
    (otpVerify (otpWrongRuns "13800000000" "000000" 0 otpDemoStore 4)
        "13800000000" "000000" 0).2 = some (.codeMismatch 0) ∧
    lookupStore (otpWrongRuns "13800000000" "000000" 0 otpDemoStore 5) "13800000000"
      = some { code := "123456", expiry := 300, attempts := 5, issuedAt := 0 } ∧
    (otpVerify (otpWrongRuns "13800000000" "000000" 0 otpDemoStore 5)
        "13800000000" "123456" 0).2 = some .tooManyAttempts := by
  decide

/-- C8: after a successful issuance for a contact at time `T`, a second
issuance strictly before `T + 60` fails `RateLimited` with a positive number
of seconds remaining, while a second issuance at or after `T + 60` succeeds
and overwrites the challenge with a fresh record. -/
theorem otp_generate_rate_limit (s : OtpStore) (phone c c2 : String) (T T2 : Int)
    (dev dev2 : Bool)
    (hfree : ∀ r, lookupStore s phone = some r → OTP_RATE_LIMIT_SEC ≤ T - r.issuedAt) :
    otpGenerate s phone T c dev
      = .issued (insertStore s phone
          { code := c, expiry := T + OTP_EXPIRE_SECONDS, attempts := 0, issuedAt := T })
          c (if dev then c else "") ∧
    (T2 < T + OTP_RATE_LIMIT_SEC →
      otpGenerate (insertStore s phone
          { code := c, expiry := T + OTP_EXPIRE_SECONDS, attempts := 0, issuedAt := T })
          phone T2 c2 dev2
        = .rateLimited (OTP_RATE_LIMIT_SEC - (T2 - T)) ∧
      0 < OTP_RATE_LIMIT_SEC - (T2 - T)) ∧
    (T + OTP_RATE_LIMIT_SEC ≤ T2 →
      otpGenerate (insertStore s phone
          { code := c, expiry := T + OTP_EXPIRE_SECONDS, attempts := 0, issuedAt := T })
          phone T2 c2 dev2
        = .issued (insertStore
            (insertStore s phone
              { code := c, expiry := T + OTP_EXPIRE_SECONDS, attempts := 0, issuedAt := T })
            phone
            { code := c2, expiry := T2 + OTP_EXPIRE_SECONDS, attempts := 0, issuedAt := T2 })
            c2 (if dev2 then c2 else "")) := by
  refine ⟨?_, fun h2 => ⟨?_, by omega⟩, fun h3 => ?_⟩
  · cases h : lookupStore s phone with
    | none => simp [otpGenerate, h]
    | some r =>
        have := hfree r h
        simp only [otpGenerate, h]
        rw [if_neg (by omega)]
  · simp only [otpGenerate, lookupStore_insert]
    rw [if_pos (by omega)]
  · simp only [otpGenerate, lookupStore_insert]
    rw [if_neg (by omega)]

/-- C8 witness: issuance at time 0, retry at 30 (rate limited with 30 s
remaining) and at 60 (fresh challenge stored). -/
theorem otp_generate_rate_limit_w :
    otpGenerate [] "13800138000" 0 "111111" true
      = .issued [("13800138000",
          { code := "111111", expiry := 300, attempts := 0, issuedAt := 0 })]
          "111111" "111111" ∧
    otpGenerate [("13800138000",
        { code := "111111", expiry := 300, attempts := 0, issuedAt := 0 })]
        "13800138000" 30 "222222" true
      = .rateLimited 30 ∧
    otpGenerate [("13800138000",
        { code := "111111", expiry := 300, attempts := 0, issuedAt := 0 })]
        "13800138000" 60 "222222" false
      = .issued [("13800138000",
          { code := "222222", expiry := 360, attempts := 0, issuedAt := 60 })]
          "222222" "" := by
  have hfree : ∀ r : OtpRecord, lookupStore ([] : OtpStore) "13800138000" = some r →
      OTP_RATE_LIMIT_SEC ≤ 0 - r.issuedAt := fun r h => by simp [lookupStore] at h
  refine ⟨(otp_generate_rate_limit [] "13800138000" "111111" "222222" 0 30 true true hfree).1,
    ((otp_generate_rate_limit [] "13800138000" "111111" "222222" 0 30 true true hfree).2.1
      (by decide)).1,
    (otp_generate_rate_limit [] "13800138000" "111111" "222222" 0 60 true false hfree).2.2
      (by decide)⟩

/-- C9 (amended): for a live, unexpired challenge with fewer than the maximum
number of failed attempts so far, verifying with the exactly matching code
deletes the record and succeeds, and an immediately repeated verification
with the same code fails `NotFound`. -/
theorem otp_match_consumes_amended (s : OtpStore) (phone code : String) (now : Int)
    (r : OtpRecord) (hl : lookupStore s phone = some r) (hc : r.code = code)
    (hexp : now ≤ r.expiry) (ha : r.attempts + 1 ≤ OTP_MAX_ATTEMPTS) :
    otpVerify s phone code now = (eraseStore s phone, none) ∧
    (otpVerify (eraseStore s phone) phone code now).2 = some .notFound := by
  refine ⟨otpVerify_correct s phone code now r hl hexp ha hc, ?_⟩
  rw [otpVerify_notFound _ _ _ _ (lookupStore_erase _ _)]

/-- C9 witness: a challenge with two prior failed attempts is consumed by the
matching code at time 5, and the repeat verification fails `NotFound`. -/
theorem otp_match_consumes_amended_w :
    otpVerify [("13900000001",
        { code := "654321", expiry := 300, attempts := 2, issuedAt := 0 })]
        "13900000001" "654321" 5
      = ([], none) ∧
    (otpVerify ([] : OtpStore) "13900000001" "654321" 5).2 = some .notFound :=
  otp_match_consumes_amended
    [("13900000001", { code := "654321", expiry := 300, attempts := 2, issuedAt := 0 })]
    "13900000001" "654321" 5
    { code := "654321", expiry := 300, attempts := 2, issuedAt := 0 }
    (by decide) rfl (by decide) (by decide)

/-- A live, unexpired challenge that has already absorbed five wrong attempts. -/
def otpLimitStore : OtpStore :=
  [("13800000000", { code := "123456", expiry := 300, attempts := 5, issuedAt := 0 })]

/-- C9 counterexample: for a live, unexpired challenge whose attempt counter
already stands at the maximum (5 wrong tries so far), verifying with the
exactly matching code does NOT succeed — it fails `TooManyAttempts` (the
counter is incremented to 6 before the code comparison). -/
theorem otp_match_at_attempt_limit_cex :
    otpVerify otpLimitStore "13800000000" "123456" 0
      = ([], some .tooManyAttempts) := by
  decide

/-! ## JWT token service (`issue_access_token`, `issue_refresh_token`,
`verify_token`, `revoke_token`)

A token is either a well-formed claim set signed with the process secret
(`Token.valid`) or anything whose decode fails structurally or on the
signature (`Token.malformed`).  `pyjwt.decode` with default options also
validates the `exp` claim: it raises `ExpiredSignatureError` when
`exp <= now` (pyjwt's `_validate_exp` with zero leeway).  The blacklist set
`_token_bl` is a list of jti strings with membership semantics. -/

def ACCESS_TOKEN_HOURS : Int := 2

def REFRESH_TOKEN_DAYS : Int := 30

inductive TokenKind
  | access
  | refresh
  deriving DecidableEq, Repr

structure TokenPayload where
  sub : String
  jti : String
  type : TokenKind
  iat : Int
  exp : Int
  deriving DecidableEq, Repr

inductive Token
  | valid (p : TokenPayload)
  | malformed (raw : String)
  deriving DecidableEq, Repr

/-- The failure modes of `verify_token`: the two pyjwt decode exceptions and
the two `InvalidTokenError`s the function itself raises (distinguished in
the Python code by their message text). -/
inductive VerifyError
  | expiredSignature
  | invalidToken
  | kindMismatch
  | revoked
  deriving DecidableEq, Repr

abbrev Blacklist := List String

instance exceptDecEq {ε α : Type} [DecidableEq ε] [DecidableEq α] :
    DecidableEq (Except ε α) := fun x y =>
  match x, y with
  | .ok a, .ok b =>
      if h : a = b then .isTrue (by rw [h]) else .isFalse (by simp [h])
  | .error e, .error f =>
      if h : e = f then .isTrue (by rw [h]) else .isFalse (by simp [h])
  | .ok _, .error _ => .isFalse (by simp)
  | .error _, .ok _ => .isFalse (by simp)

def decodeJwt : Token → Int → Except VerifyError TokenPayload
  | .malformed _, _ => .error .invalidToken
  | .valid p, now => if p.exp ≤ now then .error .expiredSignature else .ok p

def issue_access_token (userId jti : String) (now : Int) : Token :=
  .valid { sub := userId, jti := jti, type := .access, iat := now,
           exp := now + ACCESS_TOKEN_HOURS * 3600 }

def issue_refresh_token (userId jti : String) (now : Int) : Token :=
  .valid { sub := userId, jti := jti, type := .refresh, iat := now,
           exp := now + REFRESH_TOKEN_DAYS * 86400 }

/-- `verify_token`: decode (signature and expiry), then the kind check, then
the blacklist check — in that order. -/
def verify_token (t : Token) (expectedType : TokenKind) (bl : Blacklist)
    (now : Int) : Except VerifyError TokenPayload :=
  match decodeJwt t now with
  | .error e => .error e
  | .ok p =>
      if p.type ≠ expectedType then .error .kindMismatch
      else if p.jti ∈ bl then .error .revoked
      else .ok p

/-- `revoke_token`: decode inside `try`; on success add the jti to the
blacklist, on any exception do nothing.  The function is total: it never
raises, for any input. -/
def revoke_token (t : Token) (bl : Blacklist) (now : Int) : Blacklist :=
  match decodeJwt t now with
  | .ok p => p.jti :: bl
  | .error _ => bl

/-! ## `/auth/refresh` -/

/-- The responses of the `/auth/refresh` handler. -/
inductive RefreshOut
  | missingToken
  | refreshExpired
  | invalidToken (e : VerifyError)
  | userNotFound
  | ok (access refresh : Token) (bl : Blacklist)
  deriving DecidableEq, Repr

/-- `auth_refresh`: verify the presented token with expected kind `refresh`,
look the user up, revoke the old refresh token and issue a new pair.  The
fresh jti values are passed in (randomness externalized); `userExists`
abstracts the user table. -/
def auth_refresh (tok : Option Token) (bl : Blacklist) (now : Int)
    (userExists : String → Bool) (jtiA jtiR : String) : RefreshOut :=
  match tok with
  | none => .missingToken
  | some t =>
      match verify_token t .refresh bl now with
      | .error .expiredSignature => .refreshExpired
      | .error e => .invalidToken e
      | .ok p =>
          if userExists p.sub then
            .ok (issue_access_token p.sub jtiA now)
              (issue_refresh_token p.sub jtiR now)
              (revoke_token t bl now)
          else .userNotFound

/-- C6: verifying a token immediately after issuance, with the matching
expected kind and the empty revocation set, succeeds and returns claims
whose subject is the subject given at issuance — for both token kinds. -/
theorem issue_verify_roundtrip (userId jtiA jtiR : String) (now : Int) :
    (∃ p, verify_token (issue_access_token userId jtiA now) .access [] now = .ok p ∧
      p.sub = userId) ∧
    (∃ p, verify_token (issue_refresh_token userId jtiR now) .refresh [] now = .ok p ∧
      p.sub = userId) := by
  constructor
  · refine ⟨{ sub := userId, jti := jtiA, type := .access, iat := now,
              exp := now + ACCESS_TOKEN_HOURS * 3600 }, ?_, rfl⟩
    simp only [verify_token, issue_access_token, decodeJwt, ACCESS_TOKEN_HOURS]
    rw [if_neg (by omega)]
    simp
  · refine ⟨{ sub := userId, jti := jtiR, type := .refresh, iat := now,
              exp := now + REFRESH_TOKEN_DAYS * 86400 }, ?_, rfl⟩
    simp only [verify_token, issue_refresh_token, decodeJwt, REFRESH_TOKEN_DAYS]
    rw [if_neg (by omega)]
    simp

/-- C4 counterexample: revoking an already-expired but correctly signed
token is a no-op — its jti is NOT inserted into the revocation set, because
`pyjwt.decode` is called with default options and raises
`ExpiredSignatureError` inside the swallowed `try`. -/
theorem revoke_expired_token_noop_cex :
    revoke_token
      (.valid { sub := "u1", jti := "j1", type := .access, iat := 0, exp := 10 })
      [] 100 = [] ∧
    "j1" ∉ revoke_token
      (.valid { sub := "u1", jti := "j1", type := .access, iat := 0, exp := 10 })
      [] 100 := by
  decide

/-- C4 (amended): `revoke` decodes with standard validation, expiry
included: a correctly signed, unexpired token has its jti inserted into the
revocation set; an already-expired token fails decoding and the failure is
swallowed (no-op), exactly like a malformed token.  `revoke` never raises
for any input (the embedded function is total on `Token`). -/
theorem revoke_lenient_amended (p : TokenPayload) (raw : String) (bl : Blacklist)
    (now : Int) :
    (now < p.exp → revoke_token (.valid p) bl now = p.jti :: bl) ∧
    (p.exp ≤ now → revoke_token (.valid p) bl now = bl) ∧
    revoke_token (.malformed raw) bl now = bl := by
  refine ⟨fun h => ?_, fun h => ?_, rfl⟩
  · simp only [revoke_token, decodeJwt]
    rw [if_neg (by omega)]
  · simp only [revoke_token, decodeJwt]
    rw [if_pos h]

/-- C4 witness: concrete unexpired, expired and malformed revocations. -/
theorem revoke_lenient_amended_w :
    revoke_token
      (.valid { sub := "u1", jti := "jw", type := .access, iat := 0, exp := 50 })
      [] 0 = ["jw"] ∧
    revoke_token
      (.valid { sub := "u1", jti := "jw", type := .access, iat := 0, exp := 50 })
      [] 50 = [] ∧
    revoke_token (.malformed "garbage") [] 0 = [] :=
  ⟨(revoke_lenient_amended
      { sub := "u1", jti := "jw", type := .access, iat := 0, exp := 50 } "garbage" [] 0).1
      (by decide),
   (revoke_lenient_amended
      { sub := "u1", jti := "jw", type := .access, iat := 0, exp := 50 } "garbage" [] 50).2.1
      (by decide),
   (revoke_lenient_amended
      { sub := "u1", jti := "jw", type := .access, iat := 0, exp := 50 } "garbage" [] 0).2.2⟩

/-- C7 counterexample: after revoking an unexpired refresh token, verifying
it with expected kind `access` fails `KindMismatch`, not `Revoked` — the
kind check precedes the blacklist check — so the claim's "every
verify(t, kind) fails with Revoked" is false. -/
theorem verify_revoked_kind_precedence_cex :
    verify_token (issue_refresh_token "u1" "j1" 0) .access
        (revoke_token (issue_refresh_token "u1" "j1" 0) [] 0) 0
      = .error .kindMismatch ∧
    verify_token (issue_refresh_token "u1" "j1" 0) .access
        (revoke_token (issue_refresh_token "u1" "j1" 0) [] 0) 0
      ≠ .error .revoked := by
  decide

/-- C7 (amended): after `revoke(t)` of an unexpired token, verifying `t`
with its own kind fails `Revoked` before expiry; with a mismatched expected
kind it fails `KindMismatch` (the kind check precedes the revocation
check).  A successful refresh with refresh token `r` revokes `r` and issues
a new access+refresh pair, so a second refresh attempt with the same `r`
fails `Revoked` (reported by the handler as `invalid_token`). -/
theorem revoke_verify_refresh_amended (p : TokenPayload) (bl : Blacklist)
    (now now2 : Int) (userExists : String → Bool) (jtiA jtiR jtiA2 jtiR2 : String) :
    (now < p.exp → now2 < p.exp →
      verify_token (.valid p) p.type (revoke_token (.valid p) bl now) now2
        = .error .revoked) ∧
    (∀ k, k ≠ p.type → now < p.exp → now2 < p.exp →
      verify_token (.valid p) k (revoke_token (.valid p) bl now) now2
        = .error .kindMismatch) ∧
    (p.type = .refresh → now < p.exp → p.jti ∉ bl → userExists p.sub = true →
      auth_refresh (some (.valid p)) bl now userExists jtiA jtiR
        = .ok (issue_access_token p.sub jtiA now) (issue_refresh_token p.sub jtiR now)
            (p.jti :: bl) ∧
      auth_refresh (some (.valid p)) (p.jti :: bl) now userExists jtiA2 jtiR2
        = .invalidToken .revoked) := by
  refine ⟨fun h1 h2 => ?_, fun k hk h1 h2 => ?_, fun hty h1 hbl hu => ⟨?_, ?_⟩⟩
  · have hrv : revoke_token (.valid p) bl now = p.jti :: bl := by
      simp only [revoke_token, decodeJwt]; rw [if_neg (by omega)]
    rw [hrv]
    simp only [verify_token, decodeJwt]
    rw [if_neg (by omega)]
    simp
  · have hrv : revoke_token (.valid p) bl now = p.jti :: bl := by
      simp only [revoke_token, decodeJwt]; rw [if_neg (by omega)]
    rw [hrv]
    simp only [verify_token, decodeJwt]
    rw [if_neg (by omega)]
    simp [Ne.symm hk]
  · have hv : verify_token (.valid p) .refresh bl now = .ok p := by
      simp only [verify_token, decodeJwt]
      rw [if_neg (by omega)]
      simp [hty, hbl]
    have hrv : revoke_token (.valid p) bl now = p.jti :: bl := by
      simp only [revoke_token, decodeJwt]; rw [if_neg (by omega)]
    simp [auth_refresh, hv, hu, hrv]
  · have hv : verify_token (.valid p) .refresh (p.jti :: bl) now = .error .revoked := by
      simp only [verify_token, decodeJwt]
      rw [if_neg (by omega)]
      simp [hty]
    simp [auth_refresh, hv]

/-- C7 witness: a concrete refresh token is revoked, then rejected by kind
and by revocation, and the refresh endpoint rotates it exactly once. -/
theorem revoke_verify_refresh_amended_w :
    verify_token (.valid { sub := "u2", jti := "jr", type := .refresh, iat := 0, exp := 2592000 })
        .refresh
        (revoke_token
          (.valid { sub := "u2", jti := "jr", type := .refresh, iat := 0, exp := 2592000 }) [] 0)
        0
      = .error .revoked ∧
    auth_refresh
        (some (.valid { sub := "u2", jti := "jr", type := .refresh, iat := 0, exp := 2592000 }))
        ["jr"] 0 (fun _ => true) "a2" "r2"
      = .invalidToken .revoked :=
  ⟨(revoke_verify_refresh_amended
      { sub := "u2", jti := "jr", type := .refresh, iat := 0, exp := 2592000 }
      [] 0 0 (fun _ => true) "a1" "r1" "a2" "r2").1 (by decide) (by decide),
   ((revoke_verify_refresh_amended
      { sub := "u2", jti := "jr", type := .refresh, iat := 0, exp := 2592000 }
      [] 0 0 (fun _ => true) "a1" "r1" "a2" "r2").2.2 rfl (by decide)
      (by decide) rfl).2⟩

/-! ## `/auth/register` -/

/-- The phone check `re.match(r'^1[3-9]\d{9}$', phone)` on the (already
stripped) phone string: 11 characters, leading `1`, second digit 3-9, nine
more digits.  (`\d` is restricted here to ASCII digits.) -/
def validPhone (s : String) : Bool :=
  match s.data with
  | '1' :: c :: rest =>
      ('3' ≤ c && c ≤ '9') && rest.length == 9 && rest.all Char.isDigit
  | _ => false

/-- The responses of the `/auth/register` handler. -/
inductive RegisterOut
  | invalidPhone
  | weakPassword
  | otpError (e : OtpError)
  | alreadyExists
  | created (access refresh : Token) (userId : String)
  deriving DecidableEq, Repr

/-- `auth_register`: phone format check, password length check, OTP
verification (which mutates the OTP store), then the duplicate-phone check
against the user table, then user creation and token issuance.  The fresh
user id and jti values are passed in; `userExistsByPhone` abstracts the
user table. -/
def auth_register (phone otp password : String) (s : OtpStore) (now : Int)
    (userExistsByPhone : String → Bool) (newUserId jtiA jtiR : String) :
    RegisterOut × OtpStore :=
  if validPhone phone = true then
    if password.length < 6 then (.weakPassword, s)
    else
      match otpVerify s phone otp now with
      | (s2, some e) => (.otpError e, s2)
      | (s2, none) =>
          if userExistsByPhone phone = true then (.alreadyExists, s2)
          else
            (.created (issue_access_token newUserId jtiA now)
              (issue_refresh_token newUserId jtiR now) newUserId, s2)
  else (.invalidPhone, s)

/-- C10: a registration with a well-formed phone, a password of length at
least 6 and the correct one-time code, against a phone that already has a
user, returns `already_exists` (409) only after the code was verified and
the challenge deleted: the failed registration consumes the challenge, and
a retry with the same code fails `NotFound`. -/
theorem register_conflict_consumes_challenge (phone otp password : String)
    (s : OtpStore) (now : Int) (userExistsByPhone : String → Bool)
    (newUserId jtiA jtiR : String) (r : OtpRecord)
    (hph : validPhone phone = true) (hpw : 6 ≤ password.length)
    (hl : lookupStore s phone = some r) (hc : r.code = otp)
    (hexp : now ≤ r.expiry) (ha : r.attempts + 1 ≤ OTP_MAX_ATTEMPTS)
    (hu : userExistsByPhone phone = true) :
    auth_register phone otp password s now userExistsByPhone newUserId jtiA jtiR
      = (.alreadyExists, eraseStore s phone) ∧
    lookupStore (eraseStore s phone) phone = none ∧
    (otpVerify (eraseStore s phone) phone otp now).2 = some .notFound := by
  have hv : otpVerify s phone otp now = (eraseStore s phone, none) :=
    otpVerify_correct s phone otp now r hl hexp ha hc
  refine ⟨?_, lookupStore_erase _ _, ?_⟩
  · rw [auth_register, if_pos hph, if_neg (by omega)]
    rw [hv]
    simp [hu]
  · rw [otpVerify_notFound _ _ _ _ (lookupStore_erase _ _)]

/-- C10 witness: concrete conflicting registration consuming the challenge. -/
theorem register_conflict_consumes_challenge_w :
    auth_register "13800138000" "424242" "hunter2000"
        [("13800138000", { code := "424242", expiry := 300, attempts := 0, issuedAt := 0 })]
        10 (fun _ => true) "uid-new" "ja" "jr"
      = (.alreadyExists, []) ∧
    (otpVerify ([] : OtpStore) "13800138000" "424242" 10).2 = some .notFound := by
  have h := register_conflict_consumes_challenge "13800138000" "424242" "hunter2000"
    [("13800138000", { code := "424242", expiry := 300, attempts := 0, issuedAt := 0 })]
    10 (fun _ => true) "uid-new" "ja" "jr"
    { code := "424242", expiry := 300, attempts := 0, issuedAt := 0 }
    (by decide) (by decide) (by decide) rfl (by decide) (by decide) rfl
  exact ⟨h.1, h.2.2⟩

/-! ## Job registry and analysis runner (`tasks`, `run_deep_analysis`,
`/analyze`, `/status/<task_id>`)

A `tasks[task_id]` dict is modelled field-by-field: each optional field
mirrors the presence of the corresponding dict key.  Note that the terminal
writes in `run_deep_analysis` replace the whole dict and carry no `stage`
key. -/

/-- The merged `final_result` payload of a completed job: the parsed
stage-1 report (kept abstract as `base`) extended with the negotiation
fields and the revision fields (`data_3.get(...)` defaults to the empty
value when the key is missing). -/
structure AnalysisResult where
  base : String
  strategy : String
  email : String
  talkTrack : String
  styles : String
  revisedContract : String
  revisionNotes : String
  revisionSummary : String
  deriving DecidableEq, Repr

/-- One `tasks[task_id]` dict.  `none` in an `Option` field means the dict
has no such key. -/
structure TaskRec where
  status : String
  stage? : Option Nat
  progress? : Option String
  result? : Option AnalysisResult
  error? : Option String
  errorDetail? : Option String
  deriving DecidableEq, Repr

abbrev Registry := List (String × TaskRec)

/-- The record `/analyze` stores before spawning the runner thread. -/
def initTask (category : String) : TaskRec :=
  { status := "processing", stage? := some 0,
    progress? := some ("正在初始化【" ++ category ++ "】分析任务..."),
    result? := none, error? := none, errorDetail? := none }

/-- The whole-dict write performed by the `except` handler (no `stage`
key; the captured traceback is abstracted to the message). -/
def failedRec (e : String) : TaskRec :=
  { status := "failed", stage? := none, progress? := some "分析失败",
    result? := none, error? := some e, errorDetail? := some e }

/-- The whole-dict write performed on success (no `stage` key). -/
def completedRec (res : AnalysisResult) : TaskRec :=
  { status := "completed", stage? := none, progress? := some "分析完成！",
    result? := some res, error? := none, errorDetail? := none }

/-- The parse result of the stage-1 risk-review call.  `issues?` mirrors
the presence of the `issues` key, read by `data_1['issues']`. -/
structure RiskData where
  payload : String
  issues? : Option String
  deriving DecidableEq, Repr

/-- The parse result of the negotiation-email call (`strategy` and `email`
keys are read with `data_2a[...]`, raising `KeyError` when absent). -/
structure EmailData where
  strategy? : Option String
  email? : Option String
  deriving DecidableEq, Repr

/-- The parse result of the negotiation-script call. -/
structure ScriptData where
  talkTrack? : Option String
  styles? : Option String
  deriving DecidableEq, Repr

/-- The parse result of the contract-revision call (all three keys are read
with `.get`, so absence never raises). -/
structure ReviseData where
  revisedContract? : Option String
  revisionNotes? : Option String
  revisionSummary? : Option String
  deriving DecidableEq, Repr

/-- The externalized effects of one `run_deep_analysis` execution: `setup`
is the pre-stage code (`make_llm` construction), `retrieval` the vector-db
retrieval, and the four remaining fields are the four `llm.invoke` calls
each composed with its JSON parse.  `.error e` means the Python code raised
with message `e` at that point. -/
structure Oracle where
  setup : Except String Unit
  retrieval : Except String Unit
  riskCall : Except String RiskData
  emailCall : Except String EmailData
  scriptCall : Except String ScriptData
  reviseCall : Except String ReviseData

/-- One observable action of the runner on the shared `tasks` entry:
the two in-place field writes, a whole-dict replacement, or an external
LLM call (which does not touch the registry). -/
inductive Step
  | setProgress (p : String)
  | setStage (n : Nat)
  | extCall (label : String)
  | replace (t : TaskRec)
  deriving DecidableEq, Repr

/-- The exact sequence of registry actions and external calls performed by
`run_deep_analysis`, in program order. -/
def runSteps (o : Oracle) : List Step :=
  match o.setup with
  | .error e => [.replace (failedRec e)]
  | .ok _ =>
      .setProgress "正在查阅权威法条并进行风险审查..." :: .setStage 1 ::
      match o.retrieval with
      | .error e => [.replace (failedRec e)]
      | .ok _ =>
          .extCall "risk_review" ::
          match o.riskCall with
          | .error e => [.replace (failedRec e)]
          | .ok d1 =>
              .setProgress "正在生成详尽谈判邮件..." :: .setStage 2 ::
              match d1.issues? with
              | none => [.replace (failedRec "KeyError: issues")]
              | some _ =>
                  .extCall "negotiation_email" ::
                  match o.emailCall with
                  | .error e => [.replace (failedRec e)]
                  | .ok d2a =>
                      .setProgress "正在生成多方案谈判话术..." :: .setStage 2 ::
                      .extCall "negotiation_scripts" ::
                      match o.scriptCall with
                      | .error e => [.replace (failedRec e)]
                      | .ok d2b =>
                          .setProgress "正在生成完整修订版合同..." :: .setStage 3 ::
                          .extCall "contract_revision" ::
                          match o.reviseCall with
                          | .error e => [.replace (failedRec e)]
                          | .ok d3 =>
                              .setProgress "正在整合分析报告..." :: .setStage 4 ::
                              match d2a.strategy? with
                              | none => [.replace (failedRec "KeyError: strategy")]
                              | some st =>
                                  match d2a.email? with
                                  | none => [.replace (failedRec "KeyError: email")]
                                  | some em =>
                                      match d2b.talkTrack? with
                                      | none => [.replace (failedRec "KeyError: talkTrack")]
                                      | some tt =>
                                          match d2b.styles? with
                                          | none => [.replace (failedRec "KeyError: styles")]
                                          | some sty =>
                                              [.replace (completedRec
                                                { base := d1.payload, strategy := st,
                                                  email := em, talkTrack := tt,
                                                  styles := sty,
                                                  revisedContract :=
                                                    d3.revisedContract?.getD "",
                                                  revisionNotes :=
                                                    d3.revisionNotes?.getD "",
                                                  revisionSummary :=
                                                    d3.revisionSummary?.getD "" })]

/-- Effect of one step on the job record. -/
def applyStep (r : TaskRec) : Step → TaskRec
  | .setProgress p => { r with progress? := some p }
  | .setStage n => { r with stage? := some n }
  | .extCall _ => r
  | .replace t => t

/-- The successive values of the job record, starting from `r`, one entry
per step (an external call leaves the record unchanged). -/
def statesFrom (r : TaskRec) : List Step → List TaskRec
  | [] => [r]
  | s :: rest => r :: statesFrom (applyStep r s) rest

/-- The job record's stage field as seen at the moment of each external
call, in call order. -/
def stagesAtCalls (r : TaskRec) : List Step → List (Option Nat)
  | [] => []
  | .extCall _ :: rest => r.stage? :: stagesAtCalls r rest
  | s :: rest => stagesAtCalls (applyStep r s) rest

/-- Adjacent-state discipline of the job registry: a state that has a
successor is non-terminal (`processing`), and stage numbers never
decrease. -/
def stepOk (a b : TaskRec) : Prop :=
  a.status = "processing" ∧ ∀ m n, a.stage? = some m → b.stage? = some n → m ≤ n

/-- Boolean form of `stepOk`, used to discharge each execution path by
computation. -/
def stepOkB (a b : TaskRec) : Bool :=
  (a.status == "processing") &&
    (match a.stage?, b.stage? with
     | some m, some n => m ≤ n
     | _, _ => true)

def monoOk : List TaskRec → Bool
  | [] => true
  | [_] => true
  | a :: b :: rest => stepOkB a b && monoOk (b :: rest)

theorem stepOkB_sound (a b : TaskRec) (h : stepOkB a b = true) : stepOk a b := by
  rw [stepOkB, Bool.and_eq_true] at h
  obtain ⟨h1, h2⟩ := h
  refine ⟨by simpa using h1, ?_⟩
  intro m n hm hn
  rw [hm, hn] at h2
  simpa using h2

theorem monoOk_sound : ∀ l : List TaskRec, monoOk l = true → List.Chain' stepOk l
  | [] => fun _ => List.chain'_nil
  | [_] => fun _ => List.chain'_singleton _
  | a :: b :: rest => fun h => by
      rw [monoOk, Bool.and_eq_true] at h
      exact List.chain'_cons.mpr ⟨stepOkB_sound a b h.1, monoOk_sound (b :: rest) h.2⟩

/-- C5: along every execution path of the runner, the successive values of
the job record satisfy: every state that has a successor is still
`processing` (so once the record is `completed` or `failed` no further
mutation occurs — the terminal write is the last one), and stage numbers
never decrease. -/
theorem job_record_monotone_terminal (o : Oracle) (category : String) :
    List.Chain' stepOk (statesFrom (initTask category) (runSteps o)) := by
  apply monoOk_sound
  obtain ⟨su, re, c1, c2a, c2b, c3⟩ := o
  rcases su with e | u
  · rfl
  rcases re with e | u2
  · rfl
  rcases c1 with e | ⟨pl, iss⟩
  · rfl
  rcases iss with _ | ib
  · rfl
  rcases c2a with e | ⟨st, em⟩
  · rfl
  rcases c2b with e | ⟨tt, sty⟩
  · rfl
  rcases c3 with e | ⟨rc, rn, rs⟩
  · rfl
  rcases st with _ | st
  · rfl
  rcases em with _ | em
  · rfl
  rcases tt with _ | tt
  · rfl
  rcases sty with _ | sty
  · rfl
  rfl

/-- An oracle for a fully successful run, parametrized by the payloads of
the four parsed responses. -/
def okOracle (base ib st em tt sty rc rn rs : String) : Oracle :=
  { setup := .ok (), retrieval := .ok (),
    riskCall := .ok { payload := base, issues? := some ib },
    emailCall := .ok { strategy? := some st, email? := some em },
    scriptCall := .ok { talkTrack? := some tt, styles? := some sty },
    reviseCall := .ok { revisedContract? := some rc, revisionNotes? := some rn,
                        revisionSummary? := some rs } }

/-- A concrete fully successful run. -/
def demoOracle : Oracle := okOracle "B" "I" "S" "E" "T" "Y" "R" "N" "M"

def failAt0Oracle : Oracle := { demoOracle with setup := .error "setup boom" }

def failAt1Oracle : Oracle := { demoOracle with riskCall := .error "stage1 boom" }

def failAt2Oracle : Oracle := { demoOracle with emailCall := .error "stage2 boom" }

def failAt3Oracle : Oracle := { demoOracle with reviseCall := .error "stage3 boom" }

def failAt4Oracle : Oracle :=
  { demoOracle with emailCall := .ok { strategy? := none, email? := none } }

/-- The job record left in the registry when the runner finishes. -/
def finalRec (category : String) (o : Oracle) : TaskRec :=
  (runSteps o).foldl applyStep (initTask category)

/-- The run of oracle `o` passes through a `processing` state at stage `s`
and ends in a `failed` record. -/
def failedFromStage (o : Oracle) (category : String) (s : Nat) : Bool :=
  ((statesFrom (initTask category) (runSteps o)).any
    (fun r => r.status == "processing" && r.stage? == some s)) &&
  ((statesFrom (initTask category) (runSteps o)).getLast?.map TaskRec.status
    == some "failed")

/-- C2 (amended): the runner performs its four external calls in a fixed
order, rewriting the progress message and (re-)setting the stage number
before each, but the stage is not strictly advanced before every call: the
stage values current at the four calls are 1, 2, 2, 3, and stage 4 is set
only before the final merge, after the last external call.  The record
passes through `processing` stages 0, 1, 2, 2, 3, 4 and then `completed`,
and a `failed` outcome is reachable from every non-terminal stage 0-4. -/
theorem runner_stage_trace_amended :
    (∀ base ib st em tt sty rc rn rs : String,
      runSteps (okOracle base ib st em tt sty rc rn rs) =
        [.setProgress "正在查阅权威法条并进行风险审查...", .setStage 1,
         .extCall "risk_review",
         .setProgress "正在生成详尽谈判邮件...", .setStage 2,
         .extCall "negotiation_email",
         .setProgress "正在生成多方案谈判话术...", .setStage 2,
         .extCall "negotiation_scripts",
         .setProgress "正在生成完整修订版合同...", .setStage 3,
         .extCall "contract_revision",
         .setProgress "正在整合分析报告...", .setStage 4,
         .replace (completedRec
           { base := base, strategy := st, email := em, talkTrack := tt,
             styles := sty, revisedContract := rc, revisionNotes := rn,
             revisionSummary := rs })]) ∧
    (∀ category base ib st em tt sty rc rn rs : String,
      stagesAtCalls (initTask category)
          (runSteps (okOracle base ib st em tt sty rc rn rs))
        = [some 1, some 2, some 2, some 3]) ∧
    (∀ s : Nat, s ≤ 4 → ∃ o : Oracle, failedFromStage o "其他类" s = true) := by
  refine ⟨fun base ib st em tt sty rc rn rs => rfl,
    fun category base ib st em tt sty rc rn rs => rfl, ?_⟩
  intro s hs
  interval_cases s
  · exact ⟨failAt0Oracle, by decide⟩
  · exact ⟨failAt1Oracle, by decide⟩
  · exact ⟨failAt2Oracle, by decide⟩
  · exact ⟨failAt3Oracle, by decide⟩
  · exact ⟨failAt4Oracle, by decide⟩

/-- C2 witness: a concrete run that fails from stage 4. -/
theorem runner_stage_trace_amended_w :
    ∃ o : Oracle, failedFromStage o "其他类" 4 = true :=
  runner_stage_trace_amended.2.2 4 (by decide)

/-- C2 counterexample: in a fully successful concrete run the stage number
is NOT advanced before each external call — the stage values current at the
four external calls are 1, 2, 2, 3 (not strictly increasing: the third call
runs at the same stage as the second, and stage 4 is reached by no call). -/
theorem runner_stage_not_advanced_cex :
    stagesAtCalls (initTask "其他类") (runSteps demoOracle)
      = [some 1, some 2, some 2, some 3] ∧
    (stagesAtCalls (initTask "其他类") (runSteps demoOracle)).get? 1
      = (stagesAtCalls (initTask "其他类") (runSteps demoOracle)).get? 2 := by
  decide

/-! ## `/status/<task_id>` -/

/-- The responses of the status endpoint. -/
inductive StatusOut
  | notFound
  | ok (t : TaskRec)
  deriving DecidableEq, Repr

/-- `get_status`: return the stored dict as-is, except that a missing
`progress` key is backfilled (mutating the stored record) before
returning. -/
def getStatus (reg : Registry) (taskId : String) : StatusOut × Registry :=
  match lookupStore reg taskId with
  | none => (.notFound, reg)
  | some t =>
      match t.progress? with
      | some _ => (.ok t, reg)
      | none =>
          (.ok { t with progress? := some "处理中..." },
           insertStore reg taskId { t with progress? := some "处理中..." })

/-- C3 (amended): for an unknown job id the status query answers
`not_found`; for a known id it returns the stored record with all its
fields unchanged except that a missing progress message is backfilled with
a default.  In particular status and (if present) stage, result and error
are returned as stored — terminal records, which are stored without a
stage key, are returned without one. -/
theorem status_fields_amended :
    (∀ reg id, lookupStore reg id = none → getStatus reg id = (.notFound, reg)) ∧
    (∀ reg id t, lookupStore reg id = some t →
      ∃ p, (getStatus reg id).1 = .ok { t with progress? := some p } ∧
        (t.progress? = some p ∨ (t.progress? = none ∧ p = "处理中..."))) := by
  constructor
  · intro reg id h
    simp [getStatus, h]
  · intro reg id t h
    cases hp : t.progress? with
    | some p =>
        refine ⟨p, ?_, Or.inl rfl⟩
        have ht : { t with progress? := some p } = t := by
          cases t
          simp_all
        rw [ht]
        simp [getStatus, h, hp]
    | none =>
        refine ⟨"处理中...", ?_, Or.inr ⟨rfl, rfl⟩⟩
        simp [getStatus, h, hp]

/-- C3 witness: concrete unknown-id and known-id queries. -/
theorem status_fields_amended_w :
    getStatus ([] : Registry) "nope" = (.notFound, []) ∧
    ∃ p, (getStatus [("j1", failedRec "boom")] "j1").1
        = .ok { failedRec "boom" with progress? := some p } ∧
      ((failedRec "boom").progress? = some p ∨
        ((failedRec "boom").progress? = none ∧ p = "处理中...")) :=
  ⟨status_fields_amended.1 [] "nope" rfl,
   status_fields_amended.2 [("j1", failedRec "boom")] "j1" (failedRec "boom") (by decide)⟩

/-- C3 counterexample: the record of a successfully completed job has NO
stage field (the terminal write replaces the whole dict without a stage
key), and the status query returns it that way; the same holds for a failed
job.  This refutes the claim that terminal states still expose their stage
number. -/
theorem status_terminal_has_no_stage_cex :
    (finalRec "其他类" demoOracle).status = "completed" ∧
    (finalRec "其他类" demoOracle).stage? = none ∧
    (getStatus [("job-1", finalRec "其他类" demoOracle)] "job-1").1
      = .ok (finalRec "其他类" demoOracle) ∧
    (finalRec "其他类" failAt1Oracle).status = "failed" ∧
    (finalRec "其他类" failAt1Oracle).stage? = none := by
  decide

end ContractClarity
